import Mathlib

/-!
Verification development for the dataset validation and reshaping script
`scripts/data-validation.py` (class `PipelineDataValidator` and function
`create_pipeline_ready_data`).

The script manipulates pandas data frames loaded from CSV files.  We embed a
data frame as a list of column names together with a list of rows; a cell is
`Option Val`, where `none` plays the role of a missing value (`NaN`) and
`Val` is either a rational number (CSV numeric cell) or a string (CSV cell
that does not parse as a number).  File input/output is outside the model:
the functions below take the already-loaded frames and return the values the
Python functions would return, with Python exceptions modelled by `Except`.
-/

/-- A CSV cell value: a number or a string.  A column read by `pandas.read_csv`
is homogeneous (all numbers-or-missing, or all strings-or-missing), so mixed
columns do not occur for data coming from files. -/
inductive Val where
  | num : ℚ → Val
  | str : String → Val
deriving DecidableEq

/-- A pandas `DataFrame`: named columns and a list of rows; each row lists the
cells in column order, `none` being `NaN`. -/
structure DataFrame where
  cols : List String
  rows : List (List (Option Val))
deriving DecidableEq

/-- A Python exception, as raised by the script: `KeyError` for a missing
column label, `TypeError` for an operation on a non-numeric column. -/
inductive PyError where
  | keyError : String → PyError
  | typeError : String → PyError
deriving DecidableEq

/-- Position of a column label in the header (first occurrence), `none` when
the label is absent. -/
def colIdx? (cols : List String) (c : String) : Option Nat :=
  match cols with
  | [] => none
  | c0 :: rest => if c0 = c then some 0 else (colIdx? rest c).map (· + 1)

/-- Column selection `df[c]`: the list of cells of column `c`, or a
`KeyError` when the label is absent. -/
def colE (df : DataFrame) (c : String) : Except PyError (List (Option Val)) :=
  match colIdx? df.cols c with
  | some i => .ok (df.rows.map (fun r => (r.get? i).join))
  | none => .error (.keyError c)

/-- Ordering used to sort pivot-table group keys (pandas sorts the group keys
of `pivot_table` ascending; CSV columns are homogeneous, so the relative
order of numbers and strings is never observable). -/
def Val.leb : Val → Val → Bool
  | .num a, .num b => a ≤ b
  | .num _, .str _ => true
  | .str _, .num _ => false
  | .str a, .str b => a < b || a == b

/-- Insertion into a sorted list. -/
def insertSorted (a : Val) : List Val → List Val
  | [] => [a]
  | b :: t => if Val.leb a b then a :: b :: t else b :: insertSorted a t

/-- Insertion sort with respect to `Val.leb`. -/
def sortVals (l : List Val) : List Val := l.foldr insertSorted []

/-- The sorted list of distinct values of `l` (a pandas group-key index). -/
def sortedDedup (l : List Val) : List Val := sortVals l.dedup

/-- Rows of the long-format table restricted to the `object_id`, `epoch_day`
and value columns, keeping only rows whose two group keys are present
(`groupby` drops groups with a `NaN` key). -/
def validKeyed (objCol epochCol valCol : List (Option Val)) :
    List (Val × Val × Option Val) :=
  (objCol.zip (epochCol.zip valCol)).filterMap (fun t =>
    match t with
    | (some o, some e, v) => some (o, e, v)
    | _ => none)

/-- The keyed rows whose value cell is present: exactly the (object, epoch,
value) observations that survive `pivot_table`'s aggregation (`mean`/`max`
skip `NaN`, and with `dropna=True` the all-`NaN` aggregation cells are
dropped before unstacking). -/
def definedKeyed (objCol epochCol valCol : List (Option Val)) :
    List (Val × Val × Val) :=
  (validKeyed objCol epochCol valCol).filterMap (fun t =>
    match t with
    | (o, e, some v) => some (o, e, v)
    | _ => none)

/-- Row index of the pivoted matrix: the distinct `object_id`s with at least
one observed value, sorted. -/
def rowIndexOf (objCol epochCol valCol : List (Option Val)) : List Val :=
  sortedDedup ((definedKeyed objCol epochCol valCol).map (fun t => t.1))

/-- Column index of the pivoted matrix: the distinct `epoch_day`s with at
least one observed value, sorted. -/
def colIndexOf (objCol epochCol valCol : List (Option Val)) : List Val :=
  sortedDedup ((definedKeyed objCol epochCol valCol).map (fun t => t.2.1))

/-- The observed values at one (object, epoch) cell. -/
def groupVals (d : List (Val × Val × Val)) (o e : Val) : List Val :=
  d.filterMap (fun t => if t.1 = o ∧ t.2.1 = e then some t.2.2 else none)

/-- A pivoted matrix: row labels, column labels, and the rectangular grid of
cells (`none` = `NaN`). -/
structure PivotMatrix where
  rowIdx : List Val
  colIdx : List Val
  cells : List (List (Option Val))
deriving DecidableEq

/-- The numeric cells of a list of values. -/
def numsOf (vs : List Val) : List ℚ :=
  vs.filterMap (fun v => match v with | .num q => some q | .str _ => none)

/-- `mean` aggregation over the observed values of a group (pandas `mean`
skips `NaN`; the callers guarantee the values are numeric). -/
def meanAgg (vs : List Val) : Val :=
  .num ((numsOf vs).sum / ((numsOf vs).length : ℚ))

/-- `max` of two values with respect to the key order. -/
def valMax (a b : Val) : Val := if Val.leb a b then b else a

/-- `max` aggregation over the observed values of a group. -/
def maxAgg (vs : List Val) : Val :=
  match vs with
  | [] => .num 0
  | h :: t => t.foldl valMax h

/-- The pivoted matrix `df.pivot_table(index='object_id', columns='epoch_day',
values=valcol, aggfunc=agg)` for a frame whose three columns have been
extracted, following pandas semantics with `dropna=True`: group keys with a
missing component are dropped, a cell aggregates the observed values of its
group, and rows/columns whose cells are all missing are dropped. -/
def mkPivot (objCol epochCol valCol : List (Option Val))
    (agg : List Val → Val) : PivotMatrix :=
  { rowIdx := rowIndexOf objCol epochCol valCol,
    colIdx := colIndexOf objCol epochCol valCol,
    cells := (rowIndexOf objCol epochCol valCol).map (fun o =>
      (colIndexOf objCol epochCol valCol).map (fun e =>
        match groupVals (definedKeyed objCol epochCol valCol) o e with
        | [] => none
        | vs => some (agg vs))) }

/-- Is some cell of the column a string (i.e. is the column of `object`
dtype)?  Aggregating such a column with `mean` raises `TypeError`. -/
def strInCol (l : List (Option Val)) : Bool :=
  l.any (fun c => match c with | some (.str _) => true | _ => false)

/-- The `TypeError` raised by `pivot_table(..., aggfunc='mean')` on a
non-numeric values column. -/
def aggError : PyError := .typeError "agg function failed on non-numeric column"

/-- The `TypeError` raised by an order comparison (`<`, `>`) between a
non-numeric column and a number. -/
def cmpError : PyError := .typeError "comparison of non-numeric column with a number"

/-- `df.pivot_table(index='object_id', columns='epoch_day', values=valcol,
aggfunc=agg)`: `KeyError` when one of the three labels is absent; when
`requireNum` (the `mean` case) a non-numeric values column raises
`TypeError`; otherwise the pivoted matrix. -/
def pivot_table (df : DataFrame) (valcol : String) (agg : List Val → Val)
    (requireNum : Bool) : Except PyError PivotMatrix :=
  match colE df "object_id" with
  | .error e => .error e
  | .ok objCol =>
  match colE df "epoch_day" with
  | .error e => .error e
  | .ok epochCol =>
  match colE df valcol with
  | .error e => .error e
  | .ok valCol =>
  if requireNum && strInCol valCol then .error aggError
  else .ok (mkPivot objCol epochCol valCol agg)

/-- The time-series pivot used by both the validator and the transformer:
`detections_df.pivot_table(index='object_id', columns='epoch_day',
values='mag', aggfunc='mean')`. -/
def pivot_table_mean (df : DataFrame) : Except PyError PivotMatrix :=
  pivot_table df "mag" meanAgg true

/-- Number of missing cells of the pivoted matrix
(`ts_matrix.isna().sum().sum()`). -/
def nanCells (m : PivotMatrix) : Nat :=
  (m.cells.map (fun row => row.countP Option.isNone)).sum

/-- `ts_matrix.size`: number of cells. -/
def matrixSize (m : PivotMatrix) : Nat := m.rowIdx.length * m.colIdx.length

/-- `sparsity = ts_matrix.isna().sum().sum() / ts_matrix.size` (fraction of
missing cells). -/
def sparsityOf (m : PivotMatrix) : ℚ := (nanCells m : ℚ) / (matrixSize m : ℚ)

/-- The validation report (the `results` dict of `validate_all`); the matrix
shape and sparsity entries are only present when the pivot succeeded. -/
structure Report where
  columns_ok : Bool
  no_nans : Bool
  matrix_ok : Bool
  matrix_shape : Option (Nat × Nat)
  sparsity : Option ℚ
  labels_match : Bool
  reasonable_ranges : Bool
deriving DecidableEq

/-- The required detection columns checked by `validate_all`. -/
def required_cols : List String :=
  ["object_id", "epoch_day", "mag", "flux", "mag_err", "flux_err"]

/-- `missing = [col for col in required_cols if col not in detections_df.columns]`. -/
def missingCols (det : DataFrame) : List String :=
  required_cols.filter (fun c => !(det.cols.contains c))

/-- Number of missing cells in a column. -/
def countNones (l : List (Option Val)) : Nat := l.countP Option.isNone

/-- `nan_count`: total number of missing cells over the four critical
columns. -/
def criticalNanCount (objCol epochCol magCol fluxCol : List (Option Val)) : Nat :=
  countNones objCol + countNones epochCol + countNones magCol + countNones fluxCol

/-- The pivot step of `validate_all` with its `try`/`except`: the
`matrix_ok` flag, and the `matrix_shape` and `sparsity` entries (present
only on success). -/
def pivotReport (det : DataFrame) : Bool × Option (Nat × Nat) × Option ℚ :=
  match pivot_table_mean det with
  | .ok m => (true, some (m.rowIdx.length, m.colIdx.length), some (sparsityOf m))
  | .error _ => (false, none, none)

/-- `inj_from_dets`: the distinct non-missing `injection_id`s of the
detections flagged `is_injection == 1`
(`detections_df[detections_df['is_injection'] == 1]['injection_id'].dropna().unique()`). -/
def flaggedIds (isInjCol injIdCol : List (Option Val)) : List Val :=
  ((isInjCol.zip injIdCol).filterMap
    (fun p => if p.1 = some (Val.num 1) then p.2 else none)).dedup

/-- `unmatched = set(inj_from_dets) - set(inj_from_table)`. -/
def unmatchedIds (ids : List Val) (tableCol : List (Option Val)) : List Val :=
  ids.filter (fun v => !(tableCol.contains (some v)))

/-- Does a numeric cell satisfy the predicate?  A missing cell compares
false (`NaN < 10` is `False` in pandas). -/
def cellP (p : ℚ → Bool) (c : Option Val) : Bool :=
  match c with | some (.num q) => p q | _ => false

/-- Count of cells satisfying a numeric comparison
(`(detections_df[c] < x).sum()` and friends); comparing a non-numeric
(`object` dtype with strings) column with a number raises `TypeError`. -/
def countCmp (l : List (Option Val)) (p : ℚ → Bool) : Except PyError Nat :=
  if strInCol l then .error cmpError
  else .ok (l.countP (cellP p))

/-- `mag < 10 or mag > 30` (an outlier). -/
def magOutlierP (q : ℚ) : Bool := decide (q < 10) || decide (30 < q)

/-- `flux < 0`. -/
def negFluxP (q : ℚ) : Bool := decide (q < 0)

/-- `PipelineDataValidator.validate_all`, applied to the already-loaded
`detections.csv` and `injections.csv` frames (`object_meta.csv` is loaded by
the script but not consulted by any check).  Returns the
`(all_valid, results)` pair; an uncaught Python exception is `.error`.
`all_valid` starts `True`, is cleared when a required column is missing and
when the pivot raises, and is returned unchanged by every other check, so it
equals `columns_ok && matrix_ok`. -/
def validate_all (det inj : DataFrame) : Except PyError (Bool × Report) :=
  match colE det "object_id" with
  | .error e => .error e
  | .ok objCol =>
  match colE det "epoch_day" with
  | .error e => .error e
  | .ok epochCol =>
  match colE det "mag" with
  | .error e => .error e
  | .ok magCol =>
  match colE det "flux" with
  | .error e => .error e
  | .ok fluxCol =>
  match colE det "is_injection" with
  | .error e => .error e
  | .ok isInjCol =>
  match colE det "injection_id" with
  | .error e => .error e
  | .ok injIdCol =>
  match colE inj "injection_id" with
  | .error e => .error e
  | .ok tableCol =>
  match countCmp magCol magOutlierP with
  | .error e => .error e
  | .ok magOutliers =>
  match countCmp fluxCol negFluxP with
  | .error e => .error e
  | .ok negFlux =>
  .ok ((missingCols det).isEmpty && (pivotReport det).1,
    { columns_ok := (missingCols det).isEmpty,
      no_nans := criticalNanCount objCol epochCol magCol fluxCol == 0,
      matrix_ok := (pivotReport det).1,
      matrix_shape := (pivotReport det).2.1,
      sparsity := (pivotReport det).2.2,
      labels_match := (unmatchedIds (flaggedIds isInjCol injIdCol) tableCol).isEmpty,
      reasonable_ranges := (magOutliers == 0) && (negFlux == 0) })

/-- One forward-fill pass: a missing cell takes the most recent earlier
value (carried in `acc`). -/
def ffill (acc : Option Val) : List (Option Val) → List (Option Val)
  | [] => []
  | none :: t => acc :: ffill acc t
  | some v :: t => some v :: ffill (some v) t

/-- Backward fill of a row: forward fill of the reversed row. -/
def bfill (l : List (Option Val)) : List (Option Val) :=
  (ffill none l.reverse).reverse

/-- `ts.ffill(axis=1).bfill(axis=1)` applied to one row. -/
def fillRow (l : List (Option Val)) : List (Option Val) := bfill (ffill none l)

/-- Forward- then backward-fill every row of the matrix along the epoch
axis. -/
def fillMatrix (m : PivotMatrix) : PivotMatrix :=
  { m with cells := m.cells.map fillRow }

/-- `.fillna(0)` on the label matrix: missing cells become `0`. -/
def fillZeroMatrix (m : PivotMatrix) : PivotMatrix :=
  { m with cells := m.cells.map (List.map (fun c => some (c.getD (Val.num 0)))) }

/-- `labels.values.mean()`: mean over all cells of the matrix; `TypeError`
when a cell is non-numeric. -/
def meanAllCells (m : PivotMatrix) : Except PyError ℚ :=
  if m.cells.any strInCol then .error (.typeError "mean of non-numeric matrix")
  else .ok (((m.cells.map (fun row =>
      (row.filterMap (fun c => match c with
        | some (.num q) => some q
        | _ => none)).sum)).sum) / ((m.cells.map List.length).sum : ℚ))

/-- The `data_metadata.json` summary written by the transformer. -/
structure Metadata where
  n_objects : Nat
  n_timestamps : Nat
  anomaly_rate : ℚ
  data_type : String
  source : String
deriving DecidableEq

/-- `create_pipeline_ready_data`, applied to the already-loaded
`detections.csv` frame.  Returns the `(ts, labels, metadata)` triple the
Python function returns (and writes to `time_series_matrix.csv`,
`anomaly_labels.csv` and `data_metadata.json`); an uncaught Python exception
is `.error`. -/
def create_pipeline_ready_data (det : DataFrame) :
    Except PyError (PivotMatrix × PivotMatrix × Metadata) :=
  match pivot_table_mean det with
  | .error e => .error e
  | .ok ts0 =>
  match pivot_table det "is_injection" maxAgg false with
  | .error e => .error e
  | .ok labels0 =>
  match meanAllCells (fillZeroMatrix labels0) with
  | .error e => .error e
  | .ok rate =>
  .ok (fillMatrix ts0, fillZeroMatrix labels0,
    { n_objects := (fillMatrix ts0).rowIdx.length,
      n_timestamps := (fillMatrix ts0).colIdx.length,
      anomaly_rate := rate,
      data_type := "time_series",
      source := "uploaded_dataset" })

/-- The report produced by a successful run of `validate_all`, in terms of
the extracted columns. -/
def reportOf (det : DataFrame)
    (objCol epochCol magCol fluxCol isInjCol injIdCol tableCol : List (Option Val)) :
    Report :=
  { columns_ok := (missingCols det).isEmpty,
    no_nans := criticalNanCount objCol epochCol magCol fluxCol == 0,
    matrix_ok := (pivotReport det).1,
    matrix_shape := (pivotReport det).2.1,
    sparsity := (pivotReport det).2.2,
    labels_match := (unmatchedIds (flaggedIds isInjCol injIdCol) tableCol).isEmpty,
    reasonable_ranges := (magCol.countP (cellP magOutlierP) == 0)
      && (fluxCol.countP (cellP negFluxP) == 0) }

/-- Shorthand for a numeric cell. -/
def qv (n : ℚ) : Option Val := some (.num n)

/-- Total number of missing cells over the four critical detection columns
(`object_id`, `epoch_day`, `mag`, `flux`). -/
def criticalNones (det : DataFrame) : Nat :=
  criticalNanCount ((colE det "object_id").toOption.getD [])
    ((colE det "epoch_day").toOption.getD [])
    ((colE det "mag").toOption.getD [])
    ((colE det "flux").toOption.getD [])

def detC1 : DataFrame :=
  { cols := ["object_id", "epoch_day", "mag", "flux", "mag_err", "flux_err",
             "is_injection", "injection_id"],
    rows := [[qv 1, qv 0, none, qv 1, qv 0, qv 0, qv 0, none],
             [qv 1, qv 1, qv 12, qv 1, qv 0, qv 0, qv 1, qv 5],
             [qv 2, qv 0, qv 20, qv 2, qv 0, qv 0, qv 0, none]] }

def injC1 : DataFrame := { cols := ["injection_id"], rows := [[qv 5]] }

def rptC1 : Report :=
  { columns_ok := true, no_nans := false, matrix_ok := true,
    matrix_shape := some (2, 2), sparsity := some (1/2),
    labels_match := true, reasonable_ranges := true }

def detC2 : DataFrame :=
  { cols := ["object_id", "epoch_day", "flux", "mag_err", "flux_err"],
    rows := [[qv 1, qv 0, qv 1, qv 0, qv 0]] }

def injC2 : DataFrame := { cols := ["injection_id"], rows := [[qv 5]] }

def detC2w : DataFrame :=
  { cols := ["object_id", "epoch_day", "mag", "flux", "flux_err",
             "is_injection", "injection_id"],
    rows := [[qv 1, qv 0, qv 12, qv 1, qv 0, qv 0, none]] }

def injC2w : DataFrame := { cols := ["injection_id"], rows := [[qv 5]] }

def rptC2w : Report :=
  { columns_ok := false, no_nans := true, matrix_ok := true,
    matrix_shape := some (1, 1), sparsity := some 0,
    labels_match := true, reasonable_ranges := true }

def detC5 : DataFrame :=
  { cols := ["object_id", "epoch_day", "mag", "flux", "mag_err", "flux_err",
             "is_injection", "injection_id"],
    rows := [[qv 1, qv 0, qv 35, qv 1, qv 0, qv 0, qv 1, qv 5]] }

def injC5 : DataFrame := { cols := ["injection_id"], rows := [[qv 99]] }

def rptC5 : Report :=
  { columns_ok := true, no_nans := true, matrix_ok := true,
    matrix_shape := some (1, 1), sparsity := some 0,
    labels_match := false, reasonable_ranges := false }

def detC7 : DataFrame :=
  { cols := ["object_id", "epoch_day", "mag", "flux", "mag_err", "flux_err",
             "is_injection", "injection_id"],
    rows := [[qv 1, qv 0, qv 12, qv 1, qv 0, qv 0, qv 1, qv 5]] }

def injC7 : DataFrame := { cols := ["injection_id"], rows := [[qv 5]] }

def rptC7 : Report :=
  { columns_ok := true, no_nans := true, matrix_ok := true,
    matrix_shape := some (1, 1), sparsity := some 0,
    labels_match := true, reasonable_ranges := true }

def detC9 : DataFrame :=
  { cols := ["object_id", "epoch_day", "mag", "flux", "mag_err", "flux_err"],
    rows := [[qv 1, qv 0, qv 12, qv 1, qv 0, qv 0]] }

def injC9 : DataFrame := { cols := ["injection_id"], rows := [[qv 5]] }

def detC10 : DataFrame :=
  { cols := ["object_id", "epoch_day", "mag", "flux", "mag_err", "flux_err",
             "is_injection", "injection_id"],
    rows := [[qv 1, qv 0, qv 12, qv 1, qv 0, qv 0, qv 1, none]] }

def injC10 : DataFrame := { cols := ["injection_id"], rows := [[qv 99]] }

def detC6 : DataFrame :=
  { cols := ["object_id", "epoch_day", "mag", "flux", "mag_err", "flux_err",
             "is_injection", "injection_id"],
    rows := [[qv 1, qv 0, some (.str "bad"), qv 1, qv 0, qv 0, qv 0, none]] }

def injC6 : DataFrame := { cols := ["injection_id"], rows := [[qv 5]] }

def detW6 : DataFrame :=
  { cols := ["object_id", "epoch_day", "mag", "flux", "mag_err", "flux_err",
             "is_injection", "injection_id"],
    rows := [[qv 1, qv 0, qv 12, qv 1, qv 0, qv 0, qv 0, none]] }

def injW6 : DataFrame := { cols := ["injection_id"], rows := [[qv 5]] }

def mW6 : PivotMatrix :=
  { rowIdx := [.num 1], colIdx := [.num 0], cells := [[some (.num 12)]] }

def rptW6 : Report :=
  { columns_ok := true, no_nans := true, matrix_ok := true,
    matrix_shape := some (1, 1), sparsity := some 0,
    labels_match := true, reasonable_ranges := true }

def detW8 : DataFrame :=
  { cols := ["object_id", "epoch_day", "mag", "flux", "mag_err", "flux_err",
             "is_injection", "injection_id"],
    rows := [[qv 1, qv 0, qv 12, qv 1, qv 0, qv 0, qv 1, qv 5]] }

def tsW8 : PivotMatrix :=
  { rowIdx := [.num 1], colIdx := [.num 0], cells := [[some (.num 12)]] }

def labelsW8 : PivotMatrix :=
  { rowIdx := [.num 1], colIdx := [.num 0], cells := [[some (.num 1)]] }

def mdW8 : Metadata :=
  { n_objects := 1, n_timestamps := 1, anomaly_rate := 1,
    data_type := "time_series", source := "uploaded_dataset" }

def detW3 : DataFrame :=
  { cols := ["object_id", "epoch_day", "mag", "flux", "mag_err", "flux_err",
             "is_injection", "injection_id"],
    rows := [[qv 1, qv 0, none, qv 1, qv 0, qv 0, qv 0, none],
             [qv 1, qv 1, qv 5, qv 1, qv 0, qv 0, qv 0, none],
             [qv 2, qv 0, qv 8, qv 1, qv 0, qv 0, qv 0, none],
             [qv 2, qv 1, qv 9, qv 1, qv 0, qv 0, qv 0, none]] }

def mW3 : PivotMatrix :=
  { rowIdx := [.num 1, .num 2], colIdx := [.num 0, .num 1],
    cells := [[none, some (.num 5)], [some (.num 8), some (.num 9)]] }

def tsW3 : PivotMatrix :=
  { rowIdx := [.num 1, .num 2], colIdx := [.num 0, .num 1],
    cells := [[some (.num 5), some (.num 5)], [some (.num 8), some (.num 9)]] }

def labelsW3 : PivotMatrix :=
  { rowIdx := [.num 1, .num 2], colIdx := [.num 0, .num 1],
    cells := [[qv 0, qv 0], [qv 0, qv 0]] }

def mdW3 : Metadata :=
  { n_objects := 2, n_timestamps := 2, anomaly_rate := 0,
    data_type := "time_series", source := "uploaded_dataset" }

def detC3 : DataFrame :=
  { cols := ["object_id", "epoch_day", "mag", "flux", "mag_err", "flux_err",
             "is_injection", "injection_id"],
    rows := [[qv 1, qv 0, none, qv 1, qv 0, qv 0, qv 0, none],
             [qv 1, qv 1, qv 5, qv 1, qv 0, qv 0, qv 0, none],
             [qv 1, qv 2, none, qv 1, qv 0, qv 0, qv 0, none],
             [qv 1, qv 3, qv 7, qv 1, qv 0, qv 0, qv 0, none],
             [qv 1, qv 4, none, qv 1, qv 0, qv 0, qv 0, none],
             [qv 2, qv 0, qv 12, qv 1, qv 0, qv 0, qv 0, none],
             [qv 2, qv 1, qv 12, qv 1, qv 0, qv 0, qv 0, none],
             [qv 2, qv 2, qv 12, qv 1, qv 0, qv 0, qv 0, none],
             [qv 2, qv 3, qv 12, qv 1, qv 0, qv 0, qv 0, none],
             [qv 2, qv 4, qv 12, qv 1, qv 0, qv 0, qv 0, none]] }

def detC4 : DataFrame :=
  { cols := ["object_id", "epoch_day", "mag", "flux", "mag_err", "flux_err",
             "is_injection", "injection_id"],
    rows := [[qv 1, qv 0, none, qv 1, qv 0, qv 0, qv 0, none],
             [qv 2, qv 0, qv 12, qv 1, qv 0, qv 0, none, none]] }

def detW4 : DataFrame :=
  { cols := ["object_id", "epoch_day", "mag", "flux", "mag_err", "flux_err",
             "is_injection", "injection_id"],
    rows := [[qv 1, qv 0, qv 12, qv 1, qv 0, qv 0, qv 0, none],
             [qv 2, qv 1, qv 13, qv 1, qv 0, qv 0, qv 1, qv 5]] }

def tsW4 : PivotMatrix :=
  { rowIdx := [.num 1, .num 2], colIdx := [.num 0, .num 1],
    cells := [[some (.num 12), some (.num 12)], [some (.num 13), some (.num 13)]] }

def labelsW4 : PivotMatrix :=
  { rowIdx := [.num 1, .num 2], colIdx := [.num 0, .num 1],
    cells := [[qv 0, qv 0], [qv 0, qv 1]] }

def mdW4 : Metadata :=
  { n_objects := 2, n_timestamps := 2, anomaly_rate := 1/4,
    data_type := "time_series", source := "uploaded_dataset" }

theorem colIdx?_eq_none_iff (cols : List String) (c : String) :
    colIdx? cols c = none ↔ cols.contains c = false := by
  induction cols with
  | nil => simp [colIdx?]
  | cons c0 rest ih =>
    simp only [colIdx?, List.contains_cons]
    by_cases h : c0 = c
    · simp [h]
    · have h2 : (c == c0) = false := by
        simp [BEq.comm]
        exact fun hc => h hc.symm
      simp [h, h2, Option.map_eq_none, ih]

theorem colE_error_iff (df : DataFrame) (c : String) (e : PyError) :
    colE df c = .error e ↔ (df.cols.contains c = false ∧ e = .keyError c) := by
  unfold colE
  cases h : colIdx? df.cols c with
  | some i =>
    simp only [reduceCtorEq, false_iff]
    intro ⟨hc, _⟩
    rw [← colIdx?_eq_none_iff] at hc
    rw [h] at hc
    exact Option.noConfusion hc
  | none =>
    rw [colIdx?_eq_none_iff] at h
    constructor
    · intro hok
      exact ⟨h, (Except.error.inj hok).symm⟩
    · intro ⟨_, he⟩
      rw [he]

theorem colE_ok_of_contains (df : DataFrame) (c : String)
    (h : df.cols.contains c = true) : ∃ l, colE df c = .ok l := by
  unfold colE
  cases hi : colIdx? df.cols c with
  | some i => exact ⟨_, rfl⟩
  | none =>
    rw [colIdx?_eq_none_iff] at hi
    rw [h] at hi
    exact Bool.noConfusion hi

theorem colE_ok_length (df : DataFrame) (c : String) (l : List (Option Val))
    (h : colE df c = .ok l) : l.length = df.rows.length := by
  unfold colE at h
  cases hi : colIdx? df.cols c with
  | some i =>
    rw [hi] at h
    rw [← Except.ok.inj h]
    exact List.length_map _ _
  | none =>
    rw [hi] at h
    exact Except.noConfusion h

theorem mem_insertSorted {x a : Val} : ∀ {l : List Val},
    x ∈ insertSorted a l ↔ x = a ∨ x ∈ l := by
  intro l
  induction l with
  | nil => simp [insertSorted]
  | cons b t ih =>
    by_cases h : Val.leb a b
    · simp [insertSorted, h]
    · rw [show insertSorted a (b :: t) =
          if Val.leb a b then a :: b :: t else b :: insertSorted a t from rfl,
        if_neg h]
      simp only [List.mem_cons, ih]
      tauto

theorem mem_sortVals {x : Val} : ∀ {l : List Val}, x ∈ sortVals l ↔ x ∈ l := by
  intro l
  induction l with
  | nil => simp [sortVals]
  | cons a t ih =>
    rw [show sortVals (a :: t) = insertSorted a (sortVals t) from rfl,
      mem_insertSorted, ih, List.mem_cons]

theorem mem_sortedDedup {x : Val} {l : List Val} : x ∈ sortedDedup l ↔ x ∈ l := by
  rw [sortedDedup, mem_sortVals, List.mem_dedup]

theorem ffill_allSome : ∀ (t : List (Option Val)) (v : Val),
    ∀ c ∈ ffill (some v) t, c.isSome = true := by
  intro t
  induction t with
  | nil => intro v c hc; simp [ffill] at hc
  | cons x xs ih =>
    intro v c hc
    cases x with
    | none =>
      rw [show ffill (some v) (none :: xs) = some v :: ffill (some v) xs from rfl] at hc
      rcases List.mem_cons.mp hc with h1 | h2
      · rw [h1]; rfl
      · exact ih v c h2
    | some w =>
      rw [show ffill (some v) (some w :: xs) = some w :: ffill (some w) xs from rfl] at hc
      rcases List.mem_cons.mp hc with h1 | h2
      · rw [h1]; rfl
      · exact ih w c h2

theorem ffill_last_some : ∀ (t : List (Option Val)) (acc : Option Val),
    (t.any Option.isSome || acc.isSome) = true → t ≠ [] →
    ∃ w l, (ffill acc t).reverse = some w :: l := by
  intro t
  induction t with
  | nil => intro acc _ hne; exact absurd rfl hne
  | cons x xs ih =>
    intro acc h _
    cases x with
    | some v =>
      cases xs with
      | nil => exact ⟨v, [], by simp [ffill]⟩
      | cons y ys =>
        obtain ⟨w, l, hl⟩ := ih (some v) (by simp) (by simp)
        refine ⟨w, l ++ [some v], ?_⟩
        rw [show ffill acc (some v :: y :: ys) = some v :: ffill (some v) (y :: ys) from rfl,
          List.reverse_cons, hl]
        rfl
    | none =>
      cases xs with
      | nil =>
        have hacc : acc.isSome = true := by simpa using h
        obtain ⟨w, hw⟩ := Option.isSome_iff_exists.mp hacc
        exact ⟨w, [], by simp [ffill, hw]⟩
      | cons y ys =>
        have h' : ((y :: ys).any Option.isSome || acc.isSome) = true := by
          simpa using h
        obtain ⟨w, l, hl⟩ := ih acc h' (by simp)
        refine ⟨w, l ++ [acc], ?_⟩
        rw [show ffill acc (none :: y :: ys) = acc :: ffill acc (y :: ys) from rfl,
          List.reverse_cons, hl]
        rfl

theorem fillRow_allSome (r : List (Option Val)) (h : r.any Option.isSome = true) :
    ∀ c ∈ fillRow r, c.isSome = true := by
  have hne : r ≠ [] := by
    intro he
    rw [he] at h
    simp at h
  obtain ⟨w, l, hl⟩ := ffill_last_some r none (by simp [h]) hne
  intro c hc
  rw [fillRow, bfill, List.mem_reverse, hl,
    show ffill none (some w :: l) = some w :: ffill (some w) l from rfl] at hc
  rcases List.mem_cons.mp hc with h1 | h2
  · rw [h1]; rfl
  · exact ffill_allSome l w c h2

theorem mkPivot_rows_any (objCol epochCol valCol : List (Option Val))
    (agg : List Val → Val) :
    ∀ row ∈ (mkPivot objCol epochCol valCol agg).cells,
      row.any Option.isSome = true := by
  intro row hrow
  simp only [mkPivot, List.mem_map] at hrow
  obtain ⟨o, ho, hrow⟩ := hrow
  rw [rowIndexOf, mem_sortedDedup, List.mem_map] at ho
  obtain ⟨t, ht, hto⟩ := ho
  have he : t.2.1 ∈ colIndexOf objCol epochCol valCol := by
    rw [colIndexOf, mem_sortedDedup]
    exact List.mem_map.mpr ⟨t, ht, rfl⟩
  have hg : t.2.2 ∈ groupVals (definedKeyed objCol epochCol valCol) o t.2.1 := by
    rw [groupVals, List.mem_filterMap]
    refine ⟨t, ht, ?_⟩
    rw [if_pos ⟨hto, rfl⟩]
  rw [← hrow, List.any_eq_true]
  refine ⟨match groupVals (definedKeyed objCol epochCol valCol) o t.2.1 with
          | [] => none | vs => some (agg vs), List.mem_map.mpr ⟨t.2.1, he, rfl⟩, ?_⟩
  cases hgv : groupVals (definedKeyed objCol epochCol valCol) o t.2.1 with
  | nil =>
    rw [hgv] at hg
    exact absurd hg (List.not_mem_nil _)
  | cons a as => rfl

theorem countCmp_ok {l : List (Option Val)} {p : ℚ → Bool} {n : Nat}
    (h : countCmp l p = .ok n) :
    strInCol l = false ∧ n = l.countP (cellP p) := by
  unfold countCmp at h
  by_cases hs : strInCol l
  · rw [if_pos hs] at h
    exact Except.noConfusion h
  · rw [if_neg hs] at h
    exact ⟨by simpa using hs, (Except.ok.inj h).symm⟩

theorem countCmp_error {l : List (Option Val)} {p : ℚ → Bool} {e : PyError}
    (h : countCmp l p = .error e) : e = cmpError ∧ strInCol l = true := by
  unfold countCmp at h
  by_cases hs : strInCol l
  · rw [if_pos hs] at h
    exact ⟨(Except.error.inj h).symm, hs⟩
  · rw [if_neg hs] at h
    exact Except.noConfusion h

theorem validate_all_ok (det inj : DataFrame) (b : Bool) (r : Report)
    (h : validate_all det inj = .ok (b, r)) :
    ∃ objCol epochCol magCol fluxCol isInjCol injIdCol tableCol,
      colE det "object_id" = .ok objCol ∧
      colE det "epoch_day" = .ok epochCol ∧
      colE det "mag" = .ok magCol ∧
      colE det "flux" = .ok fluxCol ∧
      colE det "is_injection" = .ok isInjCol ∧
      colE det "injection_id" = .ok injIdCol ∧
      colE inj "injection_id" = .ok tableCol ∧
      strInCol magCol = false ∧ strInCol fluxCol = false ∧
      b = ((missingCols det).isEmpty && (pivotReport det).1) ∧
      r = reportOf det objCol epochCol magCol fluxCol isInjCol injIdCol tableCol := by
  unfold validate_all at h
  cases hobj : colE det "object_id" with
  | error e => rw [hobj] at h; exact Except.noConfusion h
  | ok objCol =>
  rw [hobj] at h
  cases hepoch : colE det "epoch_day" with
  | error e => rw [hepoch] at h; exact Except.noConfusion h
  | ok epochCol =>
  rw [hepoch] at h
  cases hmag : colE det "mag" with
  | error e => rw [hmag] at h; exact Except.noConfusion h
  | ok magCol =>
  rw [hmag] at h
  cases hflux : colE det "flux" with
  | error e => rw [hflux] at h; exact Except.noConfusion h
  | ok fluxCol =>
  rw [hflux] at h
  cases hisinj : colE det "is_injection" with
  | error e => rw [hisinj] at h; exact Except.noConfusion h
  | ok isInjCol =>
  rw [hisinj] at h
  cases hinjid : colE det "injection_id" with
  | error e => rw [hinjid] at h; exact Except.noConfusion h
  | ok injIdCol =>
  rw [hinjid] at h
  cases htable : colE inj "injection_id" with
  | error e => rw [htable] at h; exact Except.noConfusion h
  | ok tableCol =>
  rw [htable] at h
  dsimp only at h
  cases hmo : countCmp magCol magOutlierP with
  | error e => rw [hmo] at h; exact Except.noConfusion h
  | ok magOutliers =>
  rw [hmo] at h
  dsimp only at h
  cases hnf : countCmp fluxCol negFluxP with
  | error e => rw [hnf] at h; exact Except.noConfusion h
  | ok negFlux =>
  rw [hnf] at h
  dsimp only at h
  have hp := Except.ok.inj h
  injection hp with hb hr
  refine ⟨objCol, epochCol, magCol, fluxCol, isInjCol, injIdCol, tableCol,
    rfl, rfl, rfl, rfl, rfl, rfl, rfl,
    (countCmp_ok hmo).1, (countCmp_ok hnf).1, hb.symm, ?_⟩
  rw [← hr, reportOf, (countCmp_ok hmo).2, (countCmp_ok hnf).2]

theorem pivot_table_ok (df : DataFrame) (valcol : String) (agg : List Val → Val)
    (requireNum : Bool) (m : PivotMatrix)
    (h : pivot_table df valcol agg requireNum = .ok m) :
    ∃ objCol epochCol valCol,
      colE df "object_id" = .ok objCol ∧
      colE df "epoch_day" = .ok epochCol ∧
      colE df valcol = .ok valCol ∧
      (requireNum && strInCol valCol) = false ∧
      m = mkPivot objCol epochCol valCol agg := by
  unfold pivot_table at h
  cases hobj : colE df "object_id" with
  | error e => rw [hobj] at h; exact Except.noConfusion h
  | ok objCol =>
  rw [hobj] at h
  cases hepoch : colE df "epoch_day" with
  | error e => rw [hepoch] at h; exact Except.noConfusion h
  | ok epochCol =>
  rw [hepoch] at h
  cases hval : colE df valcol with
  | error e => rw [hval] at h; exact Except.noConfusion h
  | ok valCol =>
  rw [hval] at h
  dsimp only at h
  by_cases hs : (requireNum && strInCol valCol) = true
  · rw [if_pos hs] at h
    exact Except.noConfusion h
  · rw [if_neg hs] at h
    exact ⟨objCol, epochCol, valCol, rfl, rfl, rfl, by simpa using hs,
      (Except.ok.inj h).symm⟩

theorem pivot_table_ok_of_cols (df : DataFrame) (valcol : String)
    (agg : List Val → Val) (requireNum : Bool)
    (objCol epochCol valCol : List (Option Val))
    (hobj : colE df "object_id" = .ok objCol)
    (hepoch : colE df "epoch_day" = .ok epochCol)
    (hval : colE df valcol = .ok valCol)
    (hs : (requireNum && strInCol valCol) = false) :
    pivot_table df valcol agg requireNum = .ok (mkPivot objCol epochCol valCol agg) := by
  unfold pivot_table
  rw [hobj, hepoch, hval]
  dsimp only
  rw [if_neg (by simp [hs])]

theorem create_ok (det : DataFrame) (ts labels : PivotMatrix) (md : Metadata)
    (h : create_pipeline_ready_data det = .ok (ts, labels, md)) :
    ∃ m l rate,
      pivot_table_mean det = .ok m ∧
      pivot_table det "is_injection" maxAgg false = .ok l ∧
      meanAllCells (fillZeroMatrix l) = .ok rate ∧
      ts = fillMatrix m ∧ labels = fillZeroMatrix l ∧
      md = { n_objects := (fillMatrix m).rowIdx.length,
             n_timestamps := (fillMatrix m).colIdx.length,
             anomaly_rate := rate,
             data_type := "time_series",
             source := "uploaded_dataset" } := by
  unfold create_pipeline_ready_data at h
  cases hm : pivot_table_mean det with
  | error e => rw [hm] at h; exact Except.noConfusion h
  | ok m =>
  rw [hm] at h
  dsimp only at h
  cases hl : pivot_table det "is_injection" maxAgg false with
  | error e => rw [hl] at h; exact Except.noConfusion h
  | ok l =>
  rw [hl] at h
  dsimp only at h
  cases hr : meanAllCells (fillZeroMatrix l) with
  | error e => rw [hr] at h; exact Except.noConfusion h
  | ok rate =>
  rw [hr] at h
  dsimp only at h
  have hp := Except.ok.inj h
  injection hp with h1 hp2
  injection hp2 with h2 h3
  exact ⟨m, l, rate, rfl, rfl, hr, h1.symm, h2.symm, h3.symm⟩

theorem validKeyed_keys_eq : ∀ (oC eC v1 v2 : List (Option Val)),
    v1.length = v2.length →
    (validKeyed oC eC v1).map (fun t => (t.1, t.2.1)) =
      (validKeyed oC eC v2).map (fun t => (t.1, t.2.1)) := by
  intro oC
  induction oC with
  | nil => intro eC v1 v2 _; rfl
  | cons o0 oC ih =>
    intro eC v1 v2 hlen
    cases eC with
    | nil => rfl
    | cons e0 eC =>
      cases v1 with
      | nil =>
        cases v2 with
        | nil => rfl
        | cons b v2 => exact absurd hlen (by simp)
      | cons a v1 =>
        cases v2 with
        | nil => exact absurd hlen (by simp)
        | cons b v2 =>
          have ihe := ih eC v1 v2 (by simpa using hlen)
          cases o0 with
          | none =>
            simp only [validKeyed, List.zip_cons_cons, List.filterMap_cons]
            exact ihe
          | some o =>
            cases e0 with
            | none =>
              simp only [validKeyed, List.zip_cons_cons, List.filterMap_cons]
              exact ihe
            | some e =>
              simp only [validKeyed, List.zip_cons_cons, List.filterMap_cons,
                List.map_cons]
              exact congrArg (List.cons (o, e)) ihe

theorem filterMap_strip_keys (L : List (Val × Val × Option Val))
    (h : ∀ t ∈ L, t.2.2.isSome = true) :
    (L.filterMap (fun t => match t with
      | (o, e, some v) => some (o, e, v)
      | _ => none)).map (fun t => (t.1, t.2.1)) =
      L.map (fun t => (t.1, t.2.1)) := by
  induction L with
  | nil => rfl
  | cons x xs ih =>
    obtain ⟨o, e, c⟩ := x
    cases c with
    | none =>
      have := h (o, e, none) (List.mem_cons_self _ _)
      simp at this
    | some v =>
      simp only [List.filterMap_cons, List.map_cons]
      exact congrArg (List.cons (o, e))
        (ih (fun t ht => h t (List.mem_cons_of_mem _ ht)))

theorem validKeyed_val_mem (oC eC vC : List (Option Val)) :
    ∀ t ∈ validKeyed oC eC vC, t.2.2 ∈ vC := by
  intro t ht
  rw [validKeyed, List.mem_filterMap] at ht
  obtain ⟨tr, htr, hf⟩ := ht
  obtain ⟨o0, e0, c⟩ := tr
  cases o0 with
  | none => exact Option.noConfusion hf
  | some o =>
    cases e0 with
    | none => exact Option.noConfusion hf
    | some e =>
      have ht2 : t = (o, e, c) := (Option.some.inj hf).symm
      rw [ht2]
      exact ((List.of_mem_zip ((List.of_mem_zip htr).2)).2)

theorem definedKeyed_keys_of_allSome (oC eC vC : List (Option Val))
    (h : ∀ c ∈ vC, c.isSome = true) :
    (definedKeyed oC eC vC).map (fun t => (t.1, t.2.1)) =
      (validKeyed oC eC vC).map (fun t => (t.1, t.2.1)) := by
  rw [definedKeyed]
  exact filterMap_strip_keys _ (fun t ht => h t.2.2 (validKeyed_val_mem oC eC vC t ht))

theorem indexes_eq_of_allSome (oC eC v1 v2 : List (Option Val))
    (h1 : ∀ c ∈ v1, c.isSome = true) (h2 : ∀ c ∈ v2, c.isSome = true)
    (hlen : v1.length = v2.length) :
    rowIndexOf oC eC v1 = rowIndexOf oC eC v2 ∧
      colIndexOf oC eC v1 = colIndexOf oC eC v2 := by
  have key : (definedKeyed oC eC v1).map (fun t => (t.1, t.2.1)) =
      (definedKeyed oC eC v2).map (fun t => (t.1, t.2.1)) := by
    rw [definedKeyed_keys_of_allSome _ _ _ h1, definedKeyed_keys_of_allSome _ _ _ h2]
    exact validKeyed_keys_eq _ _ _ _ hlen
  have hfst : ∀ (L : List (Val × Val × Val)),
      L.map (fun t => t.1) = (L.map (fun t => (t.1, t.2.1))).map Prod.fst := by
    intro L
    rw [List.map_map]
    rfl
  have hsnd : ∀ (L : List (Val × Val × Val)),
      L.map (fun t => t.2.1) = (L.map (fun t => (t.1, t.2.1))).map Prod.snd := by
    intro L
    rw [List.map_map]
    rfl
  constructor
  · rw [rowIndexOf, rowIndexOf, hfst, hfst, key]
  · rw [colIndexOf, colIndexOf, hsnd, hsnd, key]

theorem list_filter_not_isEmpty_iff (l : List Val) (p : Val → Bool) :
    (l.filter (fun v => !(p v))).isEmpty = true ↔ ∀ v ∈ l, p v = true := by
  rw [List.isEmpty_iff, List.filter_eq_nil_iff]
  simp

theorem isEmpty_false_of_mem {α : Type} {x : α} {l : List α} (h : x ∈ l) :
    l.isEmpty = false := by
  cases l with
  | nil => exact absurd h (List.not_mem_nil x)
  | cons a t => rfl

/-- C1 (amended): a missing value among the four critical columns makes
`no_nans` false in the returned report, but the completeness check does not
gate the returned flag: `overall_pass` equals `columns_ok && matrix_ok`
whatever `no_nans` is. -/
theorem c1_nan_reported_but_not_gating (det inj : DataFrame) (b : Bool) (r : Report)
    (h : validate_all det inj = .ok (b, r)) (hn : 0 < criticalNones det) :
    r.no_nans = false ∧ b = (r.columns_ok && r.matrix_ok) := by
  obtain ⟨oC, eC, mC, fC, iC, jC, tC, hobj, hepoch, hmag, hflux, _, _, _, _, _, hb, hr⟩ :=
    validate_all_ok det inj b r h
  have hcn : criticalNones det = criticalNanCount oC eC mC fC := by
    rw [criticalNones, hobj, hepoch, hmag, hflux]
    rfl
  constructor
  · rw [hr]
    show (criticalNanCount oC eC mC fC == 0) = false
    rw [← hcn]
    cases hcq : criticalNones det with
    | zero => rw [hcq] at hn; exact absurd hn (by simp)
    | succ k => rfl
  · rw [hb, hr]
    rfl

/-- C1, counterexample to the claim as stated: a detections table with a
missing `mag` value for which `validate_all` nevertheless returns
`overall_pass = true` (the completeness check's negation is not ORed into
`overall_pass`). -/
theorem c1_counterexample :
    0 < criticalNones detC1 ∧
      (validate_all detC1 injC1).toOption.map (fun p => (p.1, p.2.no_nans)) =
        some (true, false) :=
  ⟨by decide, rfl⟩

/-- C1, witness: the amended theorem applied to the concrete frame
`detC1`. -/
theorem c1_witness : rptC1.no_nans = false ∧ true = (rptC1.columns_ok && rptC1.matrix_ok) :=
  c1_nan_reported_but_not_gating detC1 injC1 true rptC1 (by with_unfolding_all rfl)
    (by decide)

/-- C2 (amended): when `mag_err` or `flux_err` is missing (and `validate_all`
returns at all), the report has `columns_ok = false` and the returned
`overall_pass` is `false`. -/
theorem c2_missing_err_column_fails (det inj : DataFrame) (b : Bool) (r : Report)
    (h : validate_all det inj = .ok (b, r))
    (hm : det.cols.contains "mag_err" = false ∨ det.cols.contains "flux_err" = false) :
    r.columns_ok = false ∧ b = false := by
  obtain ⟨oC, eC, mC, fC, iC, jC, tC, _, _, _, _, _, _, _, _, _, hb, hr⟩ :=
    validate_all_ok det inj b r h
  have hmem : "mag_err" ∈ missingCols det ∨ "flux_err" ∈ missingCols det := by
    cases hm with
    | inl h1 =>
      left
      rw [missingCols, List.mem_filter]
      refine ⟨by simp [required_cols], ?_⟩
      simp only [h1]
      rfl
    | inr h2 =>
      right
      rw [missingCols, List.mem_filter]
      refine ⟨by simp [required_cols], ?_⟩
      simp only [h2]
      rfl
  have hne : (missingCols det).isEmpty = false := by
    cases hmem with
    | inl h1 => exact isEmpty_false_of_mem h1
    | inr h2 => exact isEmpty_false_of_mem h2
  constructor
  · rw [hr]
    exact hne
  · rw [hb, hne]
    exact Bool.false_and _

/-- C2, counterexample to the claim as stated: with the `mag` column removed
(all other required columns present), `validate_all` raises `KeyError` at
the completeness step (`detections_df[['object_id','epoch_day','mag','flux']]`)
instead of returning a report with `columns_ok = false`. -/
theorem c2_counterexample :
    validate_all detC2 injC2 = .error (.keyError "mag") := rfl

/-- C2, witness: the amended theorem applied to a frame lacking only
`mag_err`. -/
theorem c2_witness : rptC2w.columns_ok = false ∧ false = false :=
  c2_missing_err_column_fails detC2w injC2w false rptC2w (by with_unfolding_all rfl)
    (Or.inl (by decide))

/-- C5: the returned `overall_pass` flag equals `columns_ok && matrix_ok`;
in particular the `labels_match` and `reasonable_ranges` report entries
never influence it. -/
theorem c5_labels_ranges_do_not_gate (det inj : DataFrame) (b : Bool) (r : Report)
    (h : validate_all det inj = .ok (b, r)) :
    b = (r.columns_ok && r.matrix_ok) := by
  obtain ⟨oC, eC, mC, fC, iC, jC, tC, _, _, _, _, _, _, _, _, _, hb, hr⟩ :=
    validate_all_ok det inj b r h
  rw [hb, hr]
  rfl

/-- C5, witness: a run in which both non-gating checks fail
(`injection_id = 5` flagged but absent from the injection table, and
`mag = 35`), yet `overall_pass` is `true`. -/
theorem c5_witness :
    true = (rptC5.columns_ok && rptC5.matrix_ok) ∧
      rptC5.labels_match = false ∧ rptC5.reasonable_ranges = false :=
  ⟨c5_labels_ranges_do_not_gate detC5 injC5 true rptC5 (by with_unfolding_all rfl),
    rfl, rfl⟩

/-- C7: in any returned report, `labels_match` is true iff the set of
`injection_id`s referenced by detections flagged `is_injection = 1` (missing
ids dropped) is a subset of the injection table's `injection_id` values. -/
theorem c7_labels_match_iff_subset (det inj : DataFrame) (b : Bool) (r : Report)
    (isInjCol injIdCol tableCol : List (Option Val))
    (h : validate_all det inj = .ok (b, r))
    (hi : colE det "is_injection" = .ok isInjCol)
    (hj : colE det "injection_id" = .ok injIdCol)
    (ht : colE inj "injection_id" = .ok tableCol) :
    r.labels_match = true ↔
      ∀ v ∈ flaggedIds isInjCol injIdCol, tableCol.contains (some v) = true := by
  obtain ⟨oC, eC, mC, fC, iC, jC, tC, _, _, _, _, hi2, hj2, ht2, _, _, _, hr⟩ :=
    validate_all_ok det inj b r h
  have e1 : iC = isInjCol := Except.ok.inj (hi2.symm.trans hi)
  have e2 : jC = injIdCol := Except.ok.inj (hj2.symm.trans hj)
  have e3 : tC = tableCol := Except.ok.inj (ht2.symm.trans ht)
  rw [hr, e1, e2, e3]
  show (unmatchedIds (flaggedIds isInjCol injIdCol) tableCol).isEmpty = true ↔ _
  rw [unmatchedIds, List.isEmpty_iff, List.filter_eq_nil_iff]
  constructor
  · intro hall v hv
    have := hall v hv
    simpa using this
  · intro hall v hv
    have := hall v hv
    simpa using this

/-- C7, witness: the iff applied to a concrete run in which the single
flagged id 5 is present in the injection table. -/
theorem c7_witness : rptC7.labels_match = true :=
  (c7_labels_match_iff_subset detC7 injC7 true rptC7
    [qv 1] [qv 5] [qv 5]
    (by with_unfolding_all rfl) rfl rfl rfl).mpr (by decide)

/-- C9: if the detections table has all six required columns but no
`is_injection` column, `validate_all` raises `KeyError` at the
label-consistency step instead of returning a report. -/
theorem c9_missing_is_injection_raises (det inj : DataFrame)
    (hreq : ∀ c ∈ required_cols, det.cols.contains c = true)
    (hno : det.cols.contains "is_injection" = false) :
    validate_all det inj = .error (.keyError "is_injection") := by
  obtain ⟨oC, hobj⟩ := colE_ok_of_contains det "object_id"
    (hreq _ (by simp [required_cols]))
  obtain ⟨eC, hepoch⟩ := colE_ok_of_contains det "epoch_day"
    (hreq _ (by simp [required_cols]))
  obtain ⟨mC, hmag⟩ := colE_ok_of_contains det "mag"
    (hreq _ (by simp [required_cols]))
  obtain ⟨fC, hflux⟩ := colE_ok_of_contains det "flux"
    (hreq _ (by simp [required_cols]))
  have hisinj : colE det "is_injection" = .error (.keyError "is_injection") :=
    (colE_error_iff det "is_injection" _).mpr ⟨hno, rfl⟩
  unfold validate_all
  rw [hobj, hepoch, hmag, hflux, hisinj]

/-- C9, witness: the theorem applied to a concrete frame having exactly the
six required columns. -/
theorem c9_witness : validate_all detC9 injC9 = .error (.keyError "is_injection") :=
  c9_missing_is_injection_raises detC9 injC9 (by decide) (by decide)

/-- C10: a detection flagged `is_injection = 1` whose `injection_id` is
missing is dropped by `.dropna()` before the label-consistency comparison,
so `labels_match` is `true` even though the injection table contains no
matching id at all. -/
theorem c10_flagged_missing_id_excluded :
    colE detC10 "is_injection" = .ok [some (Val.num 1)] ∧
      colE detC10 "injection_id" = .ok [none] ∧
      flaggedIds [some (Val.num 1)] [none] = [] ∧
      (validate_all detC10 injC10).toOption.map (fun p => p.2.labels_match) =
        some true :=
  ⟨rfl, rfl, rfl, by with_unfolding_all rfl⟩

/-- C6 (amended): no exception propagates out of the pivot step
(`validate_all` never raises the aggregation `TypeError`, which the
`try`/`except` catches), and on pivot success the returned report carries
`matrix_ok = true` together with the matrix shape and sparsity; however, on
every input whose pivot raises, `validate_all` does not return at all: the
non-numeric `mag` column that made the aggregation raise also makes the
later range-sanity comparison raise (uncaught). -/
theorem c6_pivot_guard (det inj : DataFrame) :
    validate_all det inj ≠ .error aggError ∧
      (∀ b r m, validate_all det inj = .ok (b, r) → pivot_table_mean det = .ok m →
        r.matrix_ok = true ∧
          r.matrix_shape = some (m.rowIdx.length, m.colIdx.length) ∧
          r.sparsity = some (sparsityOf m)) ∧
      (∀ e, pivot_table_mean det = .error e →
        ∀ p, validate_all det inj ≠ .ok p) := by
  refine ⟨?_, ?_, ?_⟩
  · intro h
    unfold validate_all at h
    cases hobj : colE det "object_id" with
    | error e =>
      rw [hobj] at h
      have he := Except.error.inj h
      rw [((colE_error_iff det "object_id" e).mp hobj).2] at he
      exact absurd he (by decide)
    | ok oC =>
    rw [hobj] at h
    cases hepoch : colE det "epoch_day" with
    | error e =>
      rw [hepoch] at h
      have he := Except.error.inj h
      rw [((colE_error_iff det "epoch_day" e).mp hepoch).2] at he
      exact absurd he (by decide)
    | ok eC =>
    rw [hepoch] at h
    cases hmag : colE det "mag" with
    | error e =>
      rw [hmag] at h
      have he := Except.error.inj h
      rw [((colE_error_iff det "mag" e).mp hmag).2] at he
      exact absurd he (by decide)
    | ok mC =>
    rw [hmag] at h
    cases hflux : colE det "flux" with
    | error e =>
      rw [hflux] at h
      have he := Except.error.inj h
      rw [((colE_error_iff det "flux" e).mp hflux).2] at he
      exact absurd he (by decide)
    | ok fC =>
    rw [hflux] at h
    cases hisinj : colE det "is_injection" with
    | error e =>
      rw [hisinj] at h
      have he := Except.error.inj h
      rw [((colE_error_iff det "is_injection" e).mp hisinj).2] at he
      exact absurd he (by decide)
    | ok iC =>
    rw [hisinj] at h
    cases hinjid : colE det "injection_id" with
    | error e =>
      rw [hinjid] at h
      have he := Except.error.inj h
      rw [((colE_error_iff det "injection_id" e).mp hinjid).2] at he
      exact absurd he (by decide)
    | ok jC =>
    rw [hinjid] at h
    cases htable : colE inj "injection_id" with
    | error e =>
      rw [htable] at h
      have he := Except.error.inj h
      rw [((colE_error_iff inj "injection_id" e).mp htable).2] at he
      exact absurd he (by decide)
    | ok tC =>
    rw [htable] at h
    dsimp only at h
    cases hmo : countCmp mC magOutlierP with
    | error e =>
      rw [hmo] at h
      have he := Except.error.inj h
      rw [(countCmp_error hmo).1] at he
      exact absurd he (by decide)
    | ok nmo =>
    rw [hmo] at h
    dsimp only at h
    cases hnf : countCmp fC negFluxP with
    | error e =>
      rw [hnf] at h
      have he := Except.error.inj h
      rw [(countCmp_error hnf).1] at he
      exact absurd he (by decide)
    | ok nnf =>
    rw [hnf] at h
    dsimp only at h
    exact Except.noConfusion h
  · intro b r m hok hm
    obtain ⟨oC, eC, mC, fC, iC, jC, tC, _, _, _, _, _, _, _, _, _, _, hr⟩ :=
      validate_all_ok det inj b r hok
    have hpr : pivotReport det =
        (true, some (m.rowIdx.length, m.colIdx.length), some (sparsityOf m)) := by
      rw [pivotReport, hm]
    rw [hr]
    refine ⟨?_, ?_, ?_⟩
    · show (pivotReport det).1 = true
      rw [hpr]
    · show (pivotReport det).2.1 = some (m.rowIdx.length, m.colIdx.length)
      rw [hpr]
    · show (pivotReport det).2.2 = some (sparsityOf m)
      rw [hpr]
  · intro e hpe p hok
    cases p with
    | mk b0 r0 =>
    obtain ⟨oC, eC, mC, fC, iC, jC, tC, hobj, hepoch, hmag, _, _, _, _, hs, _, _, _⟩ :=
      validate_all_ok det inj b0 r0 hok
    have hpm : pivot_table_mean det = .ok (mkPivot oC eC mC meanAgg) := by
      unfold pivot_table_mean
      exact pivot_table_ok_of_cols det "mag" meanAgg true oC eC mC hobj hepoch hmag
        (by simp [hs])
    rw [hpm] at hpe
    exact Except.noConfusion hpe

/-- C6, counterexample to the claim as stated: a detections table whose
`mag` column is non-numeric.  The pivot raises and the exception is indeed
caught, but `validate_all` then raises (uncaught) at the range-sanity
comparison on the same column, so it never returns a report with
`matrix_ok = false` and `overall_pass = false`. -/
theorem c6_counterexample :
    pivot_table_mean detC6 = .error aggError ∧
      validate_all detC6 injC6 = .error cmpError :=
  ⟨rfl, rfl⟩

/-- C6, witness: the success half applied to a concrete clean frame. -/
theorem c6_witness :
    rptW6.matrix_ok = true ∧
      rptW6.matrix_shape = some (mW6.rowIdx.length, mW6.colIdx.length) ∧
      rptW6.sparsity = some (sparsityOf mW6) :=
  (c6_pivot_guard detW6 injW6).2.1 true rptW6 mW6 (by with_unfolding_all rfl)
    (by with_unfolding_all rfl)

theorem mkPivot_cells_length (oC eC vC : List (Option Val)) (agg : List Val → Val) :
    (mkPivot oC eC vC agg).cells.length = (mkPivot oC eC vC agg).rowIdx.length := by
  show ((rowIndexOf oC eC vC).map _).length = (rowIndexOf oC eC vC).length
  exact List.length_map _ _

/-- C8: the metadata mapping of `create_pipeline_ready_data` records exactly
the time-series matrix's row and column counts, the mean over all cells of
the (zero-filled) label matrix as `anomaly_rate`, and the two fixed
descriptive fields. -/
theorem c8_metadata_consistent (det : DataFrame) (ts labels : PivotMatrix)
    (md : Metadata) (h : create_pipeline_ready_data det = .ok (ts, labels, md)) :
    md.n_objects = ts.rowIdx.length ∧
      md.n_objects = ts.cells.length ∧
      md.n_timestamps = ts.colIdx.length ∧
      meanAllCells labels = .ok md.anomaly_rate ∧
      md.data_type = "time_series" ∧
      md.source = "uploaded_dataset" := by
  obtain ⟨m, l, rate, hm, hl, hrate, hts, hlabels, hmd⟩ := create_ok det ts labels md h
  obtain ⟨oC, eC, mC, _, _, _, _, hmk⟩ := pivot_table_ok det "mag" meanAgg true m hm
  refine ⟨?_, ?_, ?_, ?_, ?_, ?_⟩
  · rw [hmd, hts]
  · rw [hmd, hts]
    show (fillMatrix m).rowIdx.length = (m.cells.map fillRow).length
    rw [List.length_map, hmk]
    exact (mkPivot_cells_length oC eC mC meanAgg).symm
  · rw [hmd, hts]
  · rw [hmd, hlabels]
    exact hrate
  · rw [hmd]
  · rw [hmd]

/-- C8, witness: the theorem applied to a concrete one-detection frame. -/
theorem c8_witness :
    mdW8.n_objects = tsW8.rowIdx.length ∧
      mdW8.n_timestamps = tsW8.colIdx.length ∧
      meanAllCells labelsW8 = .ok mdW8.anomaly_rate :=
  have h := c8_metadata_consistent detW8 tsW8 labelsW8 mdW8 (by with_unfolding_all rfl)
  ⟨h.1, h.2.2.1, h.2.2.2.1⟩

/-- C3 (amended): every row of the returned (and written) time-series matrix
is the forward- then backward-fill of the corresponding pivoted mean-`mag`
row and the filled matrix has no missing cells; however the fill rule sends
the row `[NaN, 5, NaN, 7, NaN]` to `[5, 5, 5, 7, 7]` (the spec's
`[5, 5, 7, 7, 7]` would be backward- then forward-fill). -/
theorem c3_fill_no_missing (det : DataFrame) (ts labels : PivotMatrix)
    (md : Metadata) (h : create_pipeline_ready_data det = .ok (ts, labels, md)) :
    (∃ m, pivot_table_mean det = .ok m ∧ ts.cells = m.cells.map fillRow) ∧
      (∀ row ∈ ts.cells, ∀ c ∈ row, c.isSome = true) ∧
      fillRow [none, qv 5, none, qv 7, none] = [qv 5, qv 5, qv 5, qv 7, qv 7] := by
  obtain ⟨m, l, rate, hm, hl, hrate, hts, hlabels, hmd⟩ := create_ok det ts labels md h
  obtain ⟨oC, eC, mC, _, _, _, _, hmk⟩ := pivot_table_ok det "mag" meanAgg true m hm
  refine ⟨⟨m, hm, by rw [hts]; rfl⟩, ?_, by decide⟩
  intro row hrow
  rw [hts, show (fillMatrix m).cells = m.cells.map fillRow from rfl,
    List.mem_map] at hrow
  obtain ⟨r0, hr0, hfill⟩ := hrow
  rw [← hfill]
  apply fillRow_allSome
  rw [hmk] at hr0
  exact mkPivot_rows_any oC eC mC meanAgg r0 hr0

/-- C3, witness: the theorem applied to a concrete frame with a missing
leading `mag`. -/
theorem c3_witness :
    tsW3.cells = mW3.cells.map fillRow ∧
      (∀ row ∈ tsW3.cells, ∀ c ∈ row, c.isSome = true) := by
  have h := c3_fill_no_missing detW3 tsW3 labelsW3 mdW3 (by with_unfolding_all rfl)
  obtain ⟨⟨m, hm, hcells⟩, hall, _⟩ := h
  have hconc : pivot_table_mean detW3 = .ok mW3 := by with_unfolding_all rfl
  have hmeq : m = mW3 := Except.ok.inj (hm.symm.trans hconc)
  exact ⟨by rw [hcells, hmeq], hall⟩

/-- C3, counterexample to the claim's concrete example: forward fill
followed by backward fill sends `[NaN, 5, NaN, 7, NaN]` to
`[5, 5, 5, 7, 7]`, not to the claimed `[5, 5, 7, 7, 7]`; the transformer's
output row for an object with exactly those mags at consecutive epochs shows
the same values. -/
theorem c3_counterexample :
    fillRow [none, qv 5, none, qv 7, none] ≠ [qv 5, qv 5, qv 7, qv 7, qv 7] ∧
      fillRow [none, qv 5, none, qv 7, none] = [qv 5, qv 5, qv 5, qv 7, qv 7] ∧
      (create_pipeline_ready_data detC3).toOption.map (fun p => p.1.cells.head?) =
        some (some [qv 5, qv 5, qv 5, qv 7, qv 7]) :=
  ⟨by decide, by decide, by with_unfolding_all rfl⟩

theorem listMapCongr {α β : Type} (f g : α → β) : ∀ (l : List α),
    (∀ a ∈ l, f a = g a) → l.map f = l.map g := by
  intro l
  induction l with
  | nil => intro _; rfl
  | cons a t ih =>
    intro h
    rw [List.map_cons, List.map_cons, h a (List.mem_cons_self a t),
      ih (fun x hx => h x (List.mem_cons_of_mem a hx))]

theorem fillZero_mkPivot_cells (oC eC vC : List (Option Val)) (agg : List Val → Val) :
    (fillZeroMatrix (mkPivot oC eC vC agg)).cells =
      (rowIndexOf oC eC vC).map (fun o => (colIndexOf oC eC vC).map (fun e =>
        some (match groupVals (definedKeyed oC eC vC) o e with
          | [] => Val.num 0
          | vs => agg vs))) := by
  have h2 : ∀ (o : Val), ((colIndexOf oC eC vC).map (fun e =>
      match groupVals (definedKeyed oC eC vC) o e with
      | [] => none
      | vs => some (agg vs))).map (fun c => some (c.getD (Val.num 0))) =
      (colIndexOf oC eC vC).map (fun e =>
        some (match groupVals (definedKeyed oC eC vC) o e with
          | [] => Val.num 0
          | vs => agg vs)) := by
    intro o
    rw [List.map_map]
    apply listMapCongr
    intro e _
    dsimp only [Function.comp]
    cases hgv : groupVals (definedKeyed oC eC vC) o e with
    | nil => rfl
    | cons a as => rfl
  have key : ∀ (rows : List Val),
      (rows.map (fun o => (colIndexOf oC eC vC).map (fun e =>
        match groupVals (definedKeyed oC eC vC) o e with
        | [] => none
        | vs => some (agg vs)))).map
        (List.map (fun c => some (c.getD (Val.num 0)))) =
      rows.map (fun o => (colIndexOf oC eC vC).map (fun e =>
        some (match groupVals (definedKeyed oC eC vC) o e with
          | [] => Val.num 0
          | vs => agg vs))) := by
    intro rows
    rw [List.map_map]
    exact listMapCongr _ _ rows (fun o _ => h2 o)
  exact key (rowIndexOf oC eC vC)

/-- C4 (amended): when every `mag` cell and every `is_injection` cell is
present, the label matrix of `create_pipeline_ready_data` has exactly the
row and column indexes of the time-series matrix, and each of its cells is
the `max` of `is_injection` over the detections at that (object, epoch),
defaulting to `0` where no detection exists. -/
theorem c4_label_matrix_aligned (det : DataFrame) (ts labels : PivotMatrix)
    (md : Metadata) (objCol epochCol magCol isInjCol : List (Option Val))
    (h : create_pipeline_ready_data det = .ok (ts, labels, md))
    (hobj : colE det "object_id" = .ok objCol)
    (hepoch : colE det "epoch_day" = .ok epochCol)
    (hmagc : colE det "mag" = .ok magCol)
    (hinjc : colE det "is_injection" = .ok isInjCol)
    (hmall : ∀ c ∈ magCol, c.isSome = true)
    (hiall : ∀ c ∈ isInjCol, c.isSome = true) :
    labels.rowIdx = ts.rowIdx ∧ labels.colIdx = ts.colIdx ∧
      labels.cells = labels.rowIdx.map (fun o => labels.colIdx.map (fun e =>
        some (match groupVals (definedKeyed objCol epochCol isInjCol) o e with
          | [] => Val.num 0
          | vs => maxAgg vs))) := by
  obtain ⟨m, l, rate, hm, hl, hrate, hts, hlabels, hmd⟩ := create_ok det ts labels md h
  obtain ⟨oC1, eC1, mC1, hobj1, hepoch1, hmag1, _, hmk1⟩ :=
    pivot_table_ok det "mag" meanAgg true m hm
  obtain ⟨oC2, eC2, iC2, hobj2, hepoch2, hinj2, _, hmk2⟩ :=
    pivot_table_ok det "is_injection" maxAgg false l hl
  have eo1 : oC1 = objCol := Except.ok.inj (hobj1.symm.trans hobj)
  have ee1 : eC1 = epochCol := Except.ok.inj (hepoch1.symm.trans hepoch)
  have em1 : mC1 = magCol := Except.ok.inj (hmag1.symm.trans hmagc)
  have eo2 : oC2 = objCol := Except.ok.inj (hobj2.symm.trans hobj)
  have ee2 : eC2 = epochCol := Except.ok.inj (hepoch2.symm.trans hepoch)
  have ei2 : iC2 = isInjCol := Except.ok.inj (hinj2.symm.trans hinjc)
  rw [eo1, ee1, em1] at hmk1
  rw [eo2, ee2, ei2] at hmk2
  have hlen : isInjCol.length = magCol.length := by
    rw [colE_ok_length det "is_injection" isInjCol hinjc,
      colE_ok_length det "mag" magCol hmagc]
  obtain ⟨hrow, hcol⟩ :=
    indexes_eq_of_allSome objCol epochCol isInjCol magCol hiall hmall hlen
  have hlr : labels.rowIdx = rowIndexOf objCol epochCol isInjCol := by
    rw [hlabels, hmk2]
    rfl
  have hlc : labels.colIdx = colIndexOf objCol epochCol isInjCol := by
    rw [hlabels, hmk2]
    rfl
  refine ⟨?_, ?_, ?_⟩
  · rw [hlr, hts, hmk1, hrow]
    rfl
  · rw [hlc, hts, hmk1, hcol]
    rfl
  · rw [hlabels, hmk2, fillZero_mkPivot_cells]
    rfl

/-- C4, counterexample to the claim as stated: with `pivot_table`'s
`dropna=True` semantics, object 1 (whose only `mag` is missing) is dropped
from the time-series matrix while object 2 (whose only `is_injection` is
missing) is dropped from the label matrix, so the two row indexes differ. -/
theorem c4_counterexample :
    (create_pipeline_ready_data detC4).toOption.map
      (fun p => decide (p.1.rowIdx = p.2.1.rowIdx)) = some false := by
  with_unfolding_all rfl

/-- C4, witness: the amended theorem applied to a concrete frame in which
every `mag` and `is_injection` cell is present. -/
theorem c4_witness : labelsW4.rowIdx = tsW4.rowIdx ∧ labelsW4.colIdx = tsW4.colIdx :=
  have h := c4_label_matrix_aligned detW4 tsW4 labelsW4 mdW4
    [qv 1, qv 2] [qv 0, qv 1] [qv 12, qv 13] [qv 0, qv 1]
    (by with_unfolding_all rfl) rfl rfl rfl rfl (by decide) (by decide)
  ⟨h.1, h.2.1⟩
